import Mathlib

/-!
Shallow embedding of `src/services/audioEngine.ts` (class `SonicAudioEngine`)
from the SonicStudio repository, together with theorems settling the spec
claims about the scheduler, the note synthesizer, the user-audio loop player
and the live FX update path.

JavaScript numbers are modelled as exact rationals (`ℚ`); the audio clock is a
rational timestamp.  Web Audio node graphs are modelled by records that record
the parameter values / envelope commands the code issues (`NoteRender`,
`UserFxTargets`), and the engine's mutable fields by explicit state records.
-/

namespace SonicStudio

/-! ## Data model (`src/types.ts`) -/

/-- `InstrumentLayer.type : 'user' | 'ai'`. -/
inductive LayerType
  | user
  | ai
deriving DecidableEq

/-- `Note` from `src/types.ts`: `pitch`, `startTime` (beat offset), `duration`
(beats), `velocity` (0-127 intended range, not enforced). -/
structure Note where
  pitch : Int
  startTime : ℚ
  duration : ℚ
  velocity : ℚ
deriving DecidableEq

/-- `FxConfig` from `src/types.ts`; all fields optional. -/
structure FxConfig where
  playbackRate : Option ℚ := none
  reverb : Option ℚ := none
  filterFreq : Option ℚ := none
  distortion : Option ℚ := none
deriving DecidableEq

/-- `InstrumentLayer` from `src/types.ts` (fields relevant to the engine). -/
structure InstrumentLayer where
  id : String
  type : LayerType
  instrument : String
  isActive : Bool
  volume : ℚ
  notes : Option (List Note) := none
  fx : Option FxConfig := none
deriving DecidableEq

/-! ## String helpers

The engine matches instrument tags with `instrument.toLowerCase()` and
`String.prototype.includes`.  We embed both over `List Char` so that every
definition reduces in the kernel. -/

/-- `leadMatch pat l` is true when `pat` occurs at the head of `l`. -/
def leadMatch : List Char → List Char → Bool
  | [], _ => true
  | _ :: _, [] => false
  | p :: ps, c :: cs => p == c && leadMatch ps cs

/-- `containsSeq pat l`: `pat` occurs contiguously somewhere in `l`
(JavaScript `String.prototype.includes` over the character list). -/
def containsSeq (pat : List Char) : List Char → Bool
  | [] => leadMatch pat []
  | c :: cs => leadMatch pat (c :: cs) || containsSeq pat cs

/-- JavaScript `s.includes(pat)`. -/
def strIncludes (s pat : String) : Bool :=
  containsSeq pat.data s.data

/-- JavaScript `s.toLowerCase()` (ASCII case fold, as `Char.toLower`). -/
def toLowerCase (s : String) : String :=
  ⟨s.data.map Char.toLower⟩

/-! ## Lookahead scheduler (`start`, `nextNote`)

`start()` sets `currentBeat = 0` and `nextNoteTime = ctx.currentTime + 0.1`;
each `nextNote()` adds `0.25 * 60/tempo` to `nextNoteTime`, adds `0.25` to
`currentBeat` and resets the beat to `0` once it reaches `16`. -/

/-- The scheduler's mutable timing fields. -/
structure SchedState where
  nextNoteTime : ℚ
  currentBeat : ℚ
deriving DecidableEq

/-- The timing part of `start()`: `currentBeat = 0`,
`nextNoteTime = now + 0.1`. -/
def startSched (now : ℚ) : SchedState :=
  { nextNoteTime := now + 1/10, currentBeat := 0 }

/-- `nextNote()`: advance the trigger time by a quarter beat in seconds and
the beat cursor by `0.25`, wrapping to `0` at `16`. -/
def nextNote (tempo : ℚ) (s : SchedState) : SchedState :=
  let secondsPerBeat : ℚ := 60 / tempo
  let t := s.nextNoteTime + (1/4) * secondsPerBeat
  let b := s.currentBeat + 1/4
  { nextNoteTime := t, currentBeat := if 16 ≤ b then 0 else b }

/-- Scheduler state after `n` applications of `nextNote` following a
`start()` at audio-clock time `now`. -/
def schedAfter (tempo now : ℚ) (n : ℕ) : SchedState :=
  (nextNote tempo)^[n] (startSched now)

/-! ## Note synthesizer (`playNote`, `midiToFreq` omitted)

`playNote` builds an oscillator / filter / gain chain and schedules envelope
commands on it.  We record the commands issued: the oscillator wave type, the
low-pass cutoff explicitly set on the filter (`none` when the code leaves the
filter node at its defaults, as in the percussive branch), the initial gain
value, the gain-decay command, and the oscillator start/stop times.
`midiToFreq` (an irrational power of two) is not needed by any claim and is
left out of the record. -/

/-- Oscillator wave types used by `playNote`. -/
inductive OscType
  | sine
  | sawtooth
  | triangle
deriving DecidableEq

/-- A gain envelope decay command:
`expRamp target endTime` models `exponentialRampToValueAtTime`,
`smoothTarget target startAt timeConst` models `setTargetAtTime`. -/
inductive GainDecay
  | expRamp (target endTime : ℚ)
  | smoothTarget (target startAt timeConst : ℚ)
deriving DecidableEq

/-- The envelope commands one `playNote` call issues. -/
structure NoteRender where
  oscType : OscType
  filterFreq : Option ℚ
  gainInitial : ℚ
  decay : GainDecay
  startAt : ℚ
  stopAt : ℚ
deriving DecidableEq

/-- The per-note gain the spec calls `velocityGain`:
`(volume / 100) * (note.velocity / 127)` (the code's local `vol`). -/
def velocityGain (volume velocity : ℚ) : ℚ :=
  (volume / 100) * (velocity / 127)

/-- `playNote(note, instrument, time, volume)` with the engine's current
`tempo` passed explicitly.  Follows the source's ordered category match on
`instrument.toLowerCase()`: kick/drum, then bass, then the default lead. -/
def playNote (note : Note) (instrument : String) (time volume tempo : ℚ) :
    NoteRender :=
  let type := toLowerCase instrument
  let vol := (volume / 100) * (note.velocity / 127)
  if strIncludes type "kick" || strIncludes type "drum" then
    { oscType := .sine
      filterFreq := none
      gainInitial := vol
      decay := .expRamp (1/100) (time + 1/2)
      startAt := time
      stopAt := time + 1/2 }
  else if strIncludes type "bass" then
    { oscType := .sawtooth
      filterFreq := some 600
      gainInitial := vol
      decay := .smoothTarget 0 (time + note.duration * (4/10)) (1/10)
      startAt := time
      stopAt := time + note.duration * (60 / tempo) }
  else
    { oscType := .triangle
      filterFreq := some 2000
      gainInitial := vol * (1/2)
      decay := .expRamp (1/100) (time + 1/2)
      startAt := time
      stopAt := time + 1 }

/-! ## Per-step dispatch (`scheduleNotesForBeat`)

The source iterates the layers with `forEach`, skipping a layer when
`!layer.isActive || !layer.notes || layer.type === 'user'`, and inside an
eligible layer plays every note with `Math.abs(note.startTime - beat) < 0.1`.
We model the `forEach`/call sequence as a `foldl` that appends one dispatch
record per `playNote` call, in call order. -/

/-- One `playNote` call made by `scheduleNotesForBeat`: its note, the layer's
instrument tag, the scheduled time and the layer volume. -/
structure Dispatch where
  note : Note
  instrument : String
  time : ℚ
  volume : ℚ
deriving DecidableEq

/-- The body of the outer `forEach` of `scheduleNotesForBeat`: skip the
layer when `!layer.isActive || !layer.notes || layer.type === 'user'`,
otherwise append one dispatch per note within `0.1` beat of the cursor. -/
def playCallsForLayer (beat time : ℚ) (layer : InstrumentLayer)
    (acc : List Dispatch) : List Dispatch :=
  if layer.isActive = false ∨ layer.notes = none ∨ layer.type = LayerType.user
  then acc
  else
    (layer.notes.getD []).foldl
      (fun acc2 note =>
        if |note.startTime - beat| < 1/10 then
          acc2 ++ [{ note := note, instrument := layer.instrument,
                     time := time, volume := layer.volume }]
        else acc2)
      acc

/-- `scheduleNotesForBeat(beat, time)`: the list of `playNote` calls issued,
in issue order. -/
def scheduleNotesForBeat (layers : List InstrumentLayer) (beat time : ℚ) :
    List Dispatch :=
  layers.foldl (fun acc layer => playCallsForLayer beat time layer acc) []

/-- Clamping to a closed interval, written from the spec's words for claim
comparison only; the source has no counterpart. -/
def specClamp (lo hi x : ℚ) : ℚ :=
  max lo (min hi x)

/-- Declarative per-layer dispatch list, written from the spec's words:
an active, non-user layer with a notes list contributes exactly its notes
whose `startTime` is within `0.1` beat of the cursor, in note order. -/
def layerDispatchSpec (beat time : ℚ) (layer : InstrumentLayer) :
    List Dispatch :=
  if layer.isActive = true ∧ layer.notes ≠ none ∧ layer.type ≠ LayerType.user
  then
    ((layer.notes.getD []).filter (fun n => decide (|n.startTime - beat| < 1/10))).map
      (fun n => { note := n, instrument := layer.instrument,
                  time := time, volume := layer.volume })
  else []

/-! ## Live user-audio FX update (`updateUserAudioFX`)

Each branch guards on a node's existence and, for playback rate, on the JS
truthiness of `layer.fx?.playbackRate` (absent, `0` and `NaN` are falsy; we
model the field as `Option ℚ`, where `none` and `some 0` are falsy).  The
filter branch applies `layer.fx?.filterFreq || 20000` and the reverb branch
`layer.fx?.reverb || 0`.  Every application is a `setTargetAtTime` ramp; we
record the targets last set. -/

/-- JS truthiness of an optional number (`NaN` not modelled). -/
def truthyOpt (o : Option ℚ) : Bool :=
  match o with
  | none => false
  | some v => decide (v ≠ 0)

/-- JS `o || d` on an optional number: the default replaces both an absent
and a zero value. -/
def orDefault (o : Option ℚ) (d : ℚ) : ℚ :=
  match o with
  | none => d
  | some v => if v = 0 then d else v

/-- The `setTargetAtTime` targets last issued on the user-audio chain. -/
structure UserFxTargets where
  gainTarget : ℚ
  playbackRateTarget : ℚ
  filterFreqTarget : ℚ
  reverbWetTarget : ℚ
deriving DecidableEq

/-- Which of the user-audio nodes currently exist (`userGainNode`,
`userSourceNode`, `userFilterNode`, `userReverbGain`). -/
structure UserNodes where
  hasGain : Bool
  hasSource : Bool
  hasFilter : Bool
  hasReverbGain : Bool
deriving DecidableEq

/-- `updateUserAudioFX(layer)` acting on the recorded ramp targets. -/
def updateUserAudioFX (layer : InstrumentLayer) (nodes : UserNodes)
    (st : UserFxTargets) : UserFxTargets :=
  let st1 :=
    if nodes.hasGain then
      { st with gainTarget := if layer.isActive then layer.volume / 100 else 0 }
    else st
  let st2 :=
    if nodes.hasSource && truthyOpt (layer.fx.bind FxConfig.playbackRate) then
      { st1 with playbackRateTarget := (layer.fx.bind FxConfig.playbackRate).getD 0 }
    else st1
  let st3 :=
    if nodes.hasFilter then
      { st2 with filterFreqTarget := orDefault (layer.fx.bind FxConfig.filterFreq) 20000 }
    else st2
  if nodes.hasReverbGain then
    { st3 with reverbWetTarget := orDefault (layer.fx.bind FxConfig.reverb) 0 }
  else st3

/-! ## Engine lifecycle state machine (`loadUserAudio`, `start`, `stop`,
`setLayers`, `startUserAudio`)

For the lifecycle claims we track the engine fields that govern the
user-audio loop source: `isPlaying`, `userAudioBuffer`, `userSourceNode`,
`layers`, and the pending tick timer.  Loop sources are given fresh numeric
ids; `playingSources` is the set (list) of sources on which `start(0)` has
been called and `stop()` has not — the "currently audible" loop sources.
Decoded buffers and raw file bytes are likewise identified by numbers.
`await`-ing the two external fallible calls in `loadUserAudio`
(`file.arrayBuffer()` and `decodeAudioData`) is modelled by passing their
outcomes in as `Except` values: a rejection that the code does not catch
propagates as `Except.error`. -/

/-- The engine fields relevant to the user-audio loop lifecycle. -/
structure UAEngine where
  isPlaying : Bool
  userAudioBuffer : Option ℕ
  userSourceNode : Option ℕ
  layers : List InstrumentLayer
  timerPending : Bool
  nextSourceId : ℕ
  playingSources : List ℕ
deriving DecidableEq

/-- Freshly constructed engine (all node fields null, nothing playing). -/
def initEngine : UAEngine :=
  { isPlaying := false, userAudioBuffer := none, userSourceNode := none,
    layers := [], timerPending := false, nextSourceId := 0,
    playingSources := [] }

/-- `loadUserAudio(file)`: `await file.arrayBuffer()` sits outside the
`try`, so a read rejection propagates; a `decodeAudioData` failure is caught
(logged) and leaves the buffer unchanged. -/
def loadUserAudio (readResult : Except Unit (List ℕ))
    (decode : List ℕ → Except Unit ℕ) (s : UAEngine) :
    Except Unit UAEngine :=
  match readResult with
  | .error e => .error e
  | .ok bytes =>
    match decode bytes with
    | .ok buf => .ok { s with userAudioBuffer := some buf }
    | .error _ => .ok s

/-- The layer lookup `layers.find(l => l.type === 'user')`. -/
def findUserLayer (layers : List InstrumentLayer) : Option InstrumentLayer :=
  layers.find? (fun l => decide (l.type = LayerType.user))

/-- `startUserAudio()`: returns unchanged when there is no decoded buffer or
no active user layer; otherwise creates a fresh loop source, stores it in
`userSourceNode` and starts it (the FX-chain wiring and the initial
`updateUserAudioFX` call touch only the `UserFxTargets` model above). -/
def startUserAudio (s : UAEngine) : UAEngine :=
  if s.userAudioBuffer = none then s
  else
    match findUserLayer s.layers with
    | none => s
    | some layer =>
      if layer.isActive = false then s
      else
        { s with userSourceNode := some s.nextSourceId,
                 nextSourceId := s.nextSourceId + 1,
                 playingSources := s.playingSources ++ [s.nextSourceId] }

/-- `start()`: no-op when already playing; otherwise marks playing, starts
the user-audio loop and arms the scheduler timer (the `currentBeat` /
`nextNoteTime` resets are the `SchedState` model above). -/
def startEngine (s : UAEngine) : UAEngine :=
  if s.isPlaying then s
  else startUserAudio { s with isPlaying := true, timerPending := true }

/-- `stop()`: clears the playing flag, cancels the pending timer, and if a
loop source is present hard-stops it and nulls the field. -/
def stopEngine (s : UAEngine) : UAEngine :=
  let s1 : UAEngine := { s with isPlaying := false, timerPending := false }
  match s1.userSourceNode with
  | some id =>
    { s1 with userSourceNode := none,
              playingSources := s1.playingSources.filter (fun j => decide (j ≠ id)) }
  | none => s1

/-- `setLayers(layers)` restricted to the lifecycle state: replaces the
layer list (its live `updateUserAudioFX` call only moves ramp targets). -/
def setLayersE (layers : List InstrumentLayer) (s : UAEngine) : UAEngine :=
  { s with layers := layers }

/-- The facade calls that can change the lifecycle state.  A `load` event
carries the outcomes of the two awaited external calls. -/
inductive EngineEvent
  | load (readResult : Except Unit (List ℕ)) (decodeResult : Except Unit ℕ)
  | setLayers (layers : List InstrumentLayer)
  | start
  | stop

/-- One facade call.  A rejection escaping `loadUserAudio` leaves the
engine state as it was. -/
def stepEngine (s : UAEngine) : EngineEvent → UAEngine
  | .load r d =>
    match loadUserAudio r (fun _ => d) s with
    | .ok s' => s'
    | .error _ => s
  | .setLayers ls => setLayersE ls s
  | .start => startEngine s
  | .stop => stopEngine s

/-- The engine state reached from construction by a call sequence. -/
def runEngine (es : List EngineEvent) : UAEngine :=
  es.foldl stepEngine initEngine

/-- The lifecycle invariant: when stopped nothing is audible; at most one
loop source is audible and it is the one stored in `userSourceNode`; and the
stored source id is older than the next fresh id. -/
def EngineInv (s : UAEngine) : Prop :=
  (s.isPlaying = false → s.playingSources = [])
  ∧ (s.playingSources = []
     ∨ ∃ id, s.userSourceNode = some id ∧ s.playingSources = [id])
  ∧ (∀ id, s.userSourceNode = some id → id < s.nextSourceId)

/-- Closed form for the scheduler state: the `n`-th trigger time is
`now + 0.1 + n * 0.25 * 60/tempo` and the cursor is `(n mod 64) / 4`. -/
lemma schedAfter_eq (tempo now : ℚ) (n : ℕ) :
    schedAfter tempo now n =
      { nextNoteTime := now + 1/10 + (n : ℚ) * ((1/4) * (60 / tempo)),
        currentBeat := ((n % 64 : ℕ) : ℚ) / 4 } := by
  induction n with
  | zero =>
    simp [schedAfter, startSched]
  | succ n ih =>
    have hstep : schedAfter tempo now (n + 1)
        = nextNote tempo (schedAfter tempo now n) :=
      Function.iterate_succ_apply' (nextNote tempo) n (startSched now)
    rw [hstep, ih]
    unfold nextNote
    have hlt : n % 64 < 64 := Nat.mod_lt _ (by norm_num)
    by_cases h63 : n % 64 = 63
    · have hmod : (n + 1) % 64 = 0 := by omega
      have hcond : (16 : ℚ) ≤ ((n % 64 : ℕ) : ℚ) / 4 + 1/4 := by
        rw [h63]; norm_num
      simp only [hmod, if_pos hcond, SchedState.mk.injEq]
      constructor
      · push_cast; ring
      · norm_num
    · have hmod : (n + 1) % 64 = n % 64 + 1 := by omega
      have hsmall : n % 64 + 1 < 64 := by omega
      have hcond : ¬ (16 : ℚ) ≤ ((n % 64 : ℕ) : ℚ) / 4 + 1/4 := by
        rw [not_le]
        have : ((n % 64 : ℕ) : ℚ) < 63 := by
          exact_mod_cast Nat.lt_of_le_of_ne (by omega) (by exact_mod_cast h63)
        linarith
      simp only [if_neg hcond, SchedState.mk.injEq]
      constructor
      · push_cast; ring
      · rw [hmod]; push_cast; ring

/-- C1: for every tempo `T` in 40-300 BPM held fixed, `start()` at
audio-clock time `now` resets the step cursor to `0` and sets the first
trigger time to `t0 = now + 0.1`; the scheduled absolute trigger time of
step index `i` (0..15) equals `t0 + i * 0.25 * 60/T`. -/
theorem c1_step_trigger_times (tempo now : ℚ) (i : ℕ)
    (h1 : 40 ≤ tempo) (h2 : tempo ≤ 300) (h3 : i ≤ 15) :
    (startSched now).currentBeat = 0
    ∧ (startSched now).nextNoteTime = now + 1/10
    ∧ (schedAfter tempo now i).nextNoteTime
        = (now + 1/10) + (i : ℚ) * (1/4) * (60 / tempo) := by
  refine ⟨rfl, rfl, ?_⟩
  rw [schedAfter_eq]
  show now + 1/10 + (i : ℚ) * ((1/4) * (60 / tempo))
      = now + 1/10 + (i : ℚ) * (1/4) * (60 / tempo)
  ring

/-- Witness for C1 at tempo 120, start time 0, step index 3:
`0 + 0.1 + 3 * 0.25 * 0.5 = 0.475`. -/
theorem c1_step_trigger_times_witness :
    (schedAfter 120 0 3).nextNoteTime = 19/40 :=
  ((c1_step_trigger_times 120 0 3 (by norm_num) (by norm_num)
      (by norm_num)).2.2).trans (by norm_num)

/-- C3 fails as stated: after the 16th application of the step advance the
cursor is `4`, not `0` (the cursor moves by a quarter beat per step), and
after the step at cursor `15` the next cursor is `15.25`, not `0`. -/
theorem c3_counterexample :
    (schedAfter 120 0 16).currentBeat = 4
    ∧ (schedAfter 120 0 60).currentBeat = 15
    ∧ (schedAfter 120 0 61).currentBeat = 61/4
    ∧ ((4 : ℚ) ≠ 0) ∧ ((61/4 : ℚ) ≠ 0) := by
  refine ⟨?_, ?_, ?_, by norm_num, by norm_num⟩ <;>
    · rw [schedAfter_eq]; norm_num

/-- C3 amended: the cursor advances by `0.25` per step advance and wraps to
`0` when it would reach the loop length `16`; starting from `0` it is
`(n mod 64)/4` after `n` advances, returns to `0` immediately after the 64th
advance (16 beats = 64 quarter-beat steps), never reaches `16`, and the 64
cursor positions of one loop pass are pairwise distinct (each position is
triggered exactly once per pass). -/
theorem c3_cursor_wrap (tempo now : ℚ) (n i j : ℕ)
    (hi : i < 64) (hj : j < 64) :
    (schedAfter tempo now n).currentBeat = ((n % 64 : ℕ) : ℚ) / 4
    ∧ (schedAfter tempo now n).currentBeat < 16
    ∧ (schedAfter tempo now 64).currentBeat = 0
    ∧ ((schedAfter tempo now i).currentBeat
        = (schedAfter tempo now j).currentBeat → i = j) := by
  refine ⟨?_, ?_, ?_, ?_⟩
  · rw [schedAfter_eq]
  · rw [schedAfter_eq]
    show ((n % 64 : ℕ) : ℚ) / 4 < 16
    have h : n % 64 < 64 := Nat.mod_lt _ (by norm_num)
    have h' : ((n % 64 : ℕ) : ℚ) < 64 := by exact_mod_cast h
    linarith
  · rw [schedAfter_eq]; norm_num
  · intro hbeat
    rw [schedAfter_eq, schedAfter_eq] at hbeat
    have hbeat' : ((i % 64 : ℕ) : ℚ) / 4 = ((j % 64 : ℕ) : ℚ) / 4 := hbeat
    have hi' : i % 64 = i := Nat.mod_eq_of_lt hi
    have hj' : j % 64 = j := Nat.mod_eq_of_lt hj
    rw [hi', hj'] at hbeat'
    have : (i : ℚ) = (j : ℚ) := by linarith
    exact_mod_cast this

/-- Witness for C3's amended statement at step count 64 and positions
16, 16. -/
theorem c3_cursor_wrap_witness :
    (16 : ℕ) < 64 ∧ (schedAfter 120 0 64).currentBeat = 0 :=
  ⟨by norm_num,
    (c3_cursor_wrap 120 0 64 16 16 (by norm_num) (by norm_num)).2.2.1⟩

/-- C2: the synthesized stop time depends only on the instrument category
(resolved by the ordered tag match on the lowercased tag): percussive notes
(tag contains "kick" or "drum") stop exactly `0.5` s after the trigger time
regardless of duration; bass notes (tag contains "bass", not percussive)
stop exactly `duration * 60/tempo` s after the trigger; every other note
stops exactly `1.0` s after the trigger regardless of duration. -/
theorem c2_stop_time_by_category (note : Note) (instrument : String)
    (time volume tempo : ℚ) :
    ((strIncludes (toLowerCase instrument) "kick" = true
      ∨ strIncludes (toLowerCase instrument) "drum" = true) →
      (playNote note instrument time volume tempo).stopAt = time + 1/2)
    ∧ (strIncludes (toLowerCase instrument) "kick" = false →
       strIncludes (toLowerCase instrument) "drum" = false →
       strIncludes (toLowerCase instrument) "bass" = true →
      (playNote note instrument time volume tempo).stopAt
        = time + note.duration * (60 / tempo))
    ∧ (strIncludes (toLowerCase instrument) "kick" = false →
       strIncludes (toLowerCase instrument) "drum" = false →
       strIncludes (toLowerCase instrument) "bass" = false →
      (playNote note instrument time volume tempo).stopAt = time + 1) := by
  refine ⟨?_, ?_, ?_⟩
  · rintro (h | h) <;> simp [playNote, h]
  · intro hk hd hb
    simp [playNote, hk, hd, hb]
  · intro hk hd hb
    simp [playNote, hk, hd, hb]

/-- Witness for C2: a kick note stops at `+0.5` s, a bass note of 2 beats at
60 BPM stops at `+2` s, and a lead note stops at `+1` s. -/
theorem c2_stop_time_by_category_witness :
    (playNote ⟨36, 0, 2, 100⟩ "Kick808" 0 80 60).stopAt = 1/2
    ∧ (playNote ⟨36, 0, 2, 100⟩ "Deep Bass" 0 80 60).stopAt = 2
    ∧ (playNote ⟨60, 0, 2, 100⟩ "Synth Pad" 0 80 60).stopAt = 1 :=
  ⟨((c2_stop_time_by_category ⟨36, 0, 2, 100⟩ "Kick808" 0 80 60).1
      (Or.inl (by decide))).trans (by norm_num),
   ((c2_stop_time_by_category ⟨36, 0, 2, 100⟩ "Deep Bass" 0 80 60).2.1
      (by decide) (by decide) (by decide)).trans (by norm_num),
   ((c2_stop_time_by_category ⟨60, 0, 2, 100⟩ "Synth Pad" 0 80 60).2.2
      (by decide) (by decide) (by decide)).trans (by norm_num)⟩

/-- C5: for `layerVolume` in 0-100 and `noteVelocity` in 0-127 the per-note
gain equals `(layerVolume/100) * (noteVelocity/127)` (and is the initial
gain `playNote` sets for a bass-tagged note), is monotonically
non-decreasing in each argument with the other fixed, and is zero whenever
either argument is zero. -/
theorem c5_velocity_gain (v vel : ℚ)
    (hv0 : 0 ≤ v) (hv1 : v ≤ 100) (hvel0 : 0 ≤ vel) (hvel1 : vel ≤ 127) :
    velocityGain v vel = (v / 100) * (vel / 127)
    ∧ (∀ (p : ℤ) (st d time tempo : ℚ),
        (playNote ⟨p, st, d, vel⟩ "bass" time v tempo).gainInitial
          = velocityGain v vel)
    ∧ (∀ v', v ≤ v' → velocityGain v vel ≤ velocityGain v' vel)
    ∧ (∀ vel', vel ≤ vel' → velocityGain v vel ≤ velocityGain v vel')
    ∧ (v = 0 → velocityGain v vel = 0)
    ∧ (vel = 0 → velocityGain v vel = 0) := by
  refine ⟨rfl, ?_, ?_, ?_, ?_, ?_⟩
  · intro p st d time tempo
    have hk : strIncludes (toLowerCase "bass") "kick" = false := by decide
    have hd : strIncludes (toLowerCase "bass") "drum" = false := by decide
    have hb : strIncludes (toLowerCase "bass") "bass" = true := by decide
    simp [playNote, velocityGain, hk, hd, hb]
  · intro v' hle
    unfold velocityGain
    have h127 : (0 : ℚ) ≤ vel / 127 := by positivity
    have : v / 100 ≤ v' / 100 := by linarith
    exact mul_le_mul_of_nonneg_right this h127
  · intro vel' hle
    unfold velocityGain
    have h100 : (0 : ℚ) ≤ v / 100 := by positivity
    have : vel / 127 ≤ vel' / 127 := by linarith
    exact mul_le_mul_of_nonneg_left this h100
  · intro h; rw [h]; unfold velocityGain; ring
  · intro h; rw [h]; unfold velocityGain; ring

/-- Witness for C5 at volume 80, velocity 100, second volume 90. -/
theorem c5_velocity_gain_witness :
    velocityGain 80 100 = (80/100) * (100/127)
    ∧ velocityGain 80 100 ≤ velocityGain 90 100 :=
  ⟨(c5_velocity_gain 80 100 (by norm_num) (by norm_num) (by norm_num)
      (by norm_num)).1,
   (c5_velocity_gain 80 100 (by norm_num) (by norm_num) (by norm_num)
      (by norm_num)).2.2.1 90 (by norm_num)⟩

/-- C6 fails as stated: for the bass note of duration 1 beat at 120 BPM the
smoothed decay starts at `t + 0.4` (the code uses the raw beat count
`note.duration * 0.4` as seconds), not at the claimed
`t + 0.4 * (1 * 60/120) = t + 0.2`. -/
theorem c6_counterexample :
    (playNote ⟨36, 0, 1, 100⟩ "Deep Bass" 0 80 120).decay
      = GainDecay.smoothTarget 0 (2/5) (1/10)
    ∧ ((2/5 : ℚ) ≠ (4/10) * (1 * (60/120))) := by
  have hk : strIncludes (toLowerCase "Deep Bass") "kick" = false := by decide
  have hd : strIncludes (toLowerCase "Deep Bass") "drum" = false := by decide
  have hb : strIncludes (toLowerCase "Deep Bass") "bass" = true := by decide
  constructor
  · simp only [playNote, hk, hd, hb, Bool.or_self, Bool.false_or,
      Bool.or_false, if_false, if_true, ite_false, ite_true]
    norm_num [GainDecay.smoothTarget.injEq]
  · norm_num

/-- C6 amended: for a bass-category note the amplitude holds at the initial
gain and the smoothed decay toward zero (time constant `0.1` s) begins at
`t + 0.4 * d` seconds where `d` is the note's duration in beats used
directly as seconds, with no tempo conversion (this agrees with the
claimed `t + 0.4 * d * 60/T` only when `T = 60` or `d = 0`). -/
theorem c6_bass_decay_start (note : Note) (instrument : String)
    (time volume tempo : ℚ)
    (hk : strIncludes (toLowerCase instrument) "kick" = false)
    (hd : strIncludes (toLowerCase instrument) "drum" = false)
    (hb : strIncludes (toLowerCase instrument) "bass" = true) :
    (playNote note instrument time volume tempo).decay
      = GainDecay.smoothTarget 0 (time + note.duration * (4/10)) (1/10) := by
  simp [playNote, hk, hd, hb]

/-- Witness for C6's amended statement: a 2-beat bass note at 90 BPM starts
its decay `0.8` s after the trigger. -/
theorem c6_bass_decay_start_witness :
    (playNote ⟨36, 0, 2, 100⟩ "Deep Bass" 0 80 90).decay
      = GainDecay.smoothTarget 0 (4/5) (1/10) :=
  (c6_bass_decay_start ⟨36, 0, 2, 100⟩ "Deep Bass" 0 80 90
      (by decide) (by decide) (by decide)).trans
    (by norm_num [GainDecay.smoothTarget.injEq])

/-- C4 fails as stated: the engine never clamps.  With layer volume `200`
and note velocity `254` the gain actually used is `4`, while the clamped
values (`100`, `127`) would give `1`. -/
theorem c4_counterexample :
    (playNote ⟨60, 0, 1, 254⟩ "Deep Bass" 0 200 120).gainInitial = 4
    ∧ velocityGain (specClamp 0 100 200) (specClamp 0 127 254) = 1
    ∧ ((4 : ℚ) ≠ 1) := by
  have hk : strIncludes (toLowerCase "Deep Bass") "kick" = false := by decide
  have hd : strIncludes (toLowerCase "Deep Bass") "drum" = false := by decide
  have hb : strIncludes (toLowerCase "Deep Bass") "bass" = true := by decide
  refine ⟨?_, ?_, by norm_num⟩
  · simp only [playNote, hk, hd, hb, Bool.or_self, Bool.false_or,
      Bool.or_false, ite_false, ite_true]
    norm_num
  · norm_num [velocityGain, specClamp]

/-- C4 amended: out-of-range volume and velocity are used unclamped, never
rejected: for every supplied volume and velocity (in range or not) the
per-note gain is exactly `velocityGain = (volume/100) * (velocity/127)`
(halved in the default/lead branch), and the user-audio gain target of an
active layer is exactly `volume/100`. -/
theorem c4_unclamped_gains (note : Note) (instrument : String)
    (time v tempo : ℚ) (layer : InstrumentLayer) (nodes : UserNodes)
    (st : UserFxTargets) (hg : nodes.hasGain = true)
    (ha : layer.isActive = true) :
    ((playNote note instrument time v tempo).gainInitial
        = velocityGain v note.velocity
     ∨ (playNote note instrument time v tempo).gainInitial
        = velocityGain v note.velocity * (1/2))
    ∧ (updateUserAudioFX layer nodes st).gainTarget = layer.volume / 100 := by
  constructor
  · by_cases h1 : (strIncludes (toLowerCase instrument) "kick"
        || strIncludes (toLowerCase instrument) "drum") = true
    · left; simp [playNote, velocityGain, h1]
    · by_cases h2 : strIncludes (toLowerCase instrument) "bass" = true
      · left; simp [playNote, velocityGain, h1, h2]
      · right; simp [playNote, velocityGain, h1, h2]
  · unfold updateUserAudioFX
    simp only [hg, ha, if_true, ite_true]
    split_ifs <;> simp

/-- Witness for C4's amended statement: volume `150` on an active user layer
yields gain target `1.5`, above the clamped range's maximum of `1`. -/
theorem c4_unclamped_gains_witness :
    (updateUserAudioFX
        { id := "u", type := LayerType.user, instrument := "mic",
          isActive := true, volume := 150 }
        { hasGain := true, hasSource := true, hasFilter := true,
          hasReverbGain := true }
        { gainTarget := 0, playbackRateTarget := 1, filterFreqTarget := 20000,
          reverbWetTarget := 0 }).gainTarget = 3/2 :=
  ((c4_unclamped_gains ⟨60, 0, 1, 100⟩ "mic" 0 150 120
      { id := "u", type := LayerType.user, instrument := "mic",
        isActive := true, volume := 150 }
      { hasGain := true, hasSource := true, hasFilter := true,
        hasReverbGain := true }
      { gainTarget := 0, playbackRateTarget := 1, filterFreqTarget := 20000,
        reverbWetTarget := 0 }
      rfl rfl).2).trans (by norm_num)

/-- C10: in a live FX update with the user-audio chain present, an absent or
zero `filterFreq` is applied as a `20000` Hz cutoff target, an absent or
zero `playbackRate` leaves the playback-rate target at its previous value
(not the documented default `1.0`), the filter target is never `0`, and a
nonzero playback-rate target never becomes `0`. -/
theorem c10_fx_falsy_defaults (layer : InstrumentLayer) (nodes : UserNodes)
    (st : UserFxTargets) (hf : nodes.hasFilter = true)
    (hs : nodes.hasSource = true) :
    ((layer.fx.bind FxConfig.filterFreq = none
      ∨ layer.fx.bind FxConfig.filterFreq = some 0) →
      (updateUserAudioFX layer nodes st).filterFreqTarget = 20000)
    ∧ ((layer.fx.bind FxConfig.playbackRate = none
        ∨ layer.fx.bind FxConfig.playbackRate = some 0) →
      (updateUserAudioFX layer nodes st).playbackRateTarget
        = st.playbackRateTarget)
    ∧ (updateUserAudioFX layer nodes st).filterFreqTarget ≠ 0
    ∧ (st.playbackRateTarget ≠ 0 →
      (updateUserAudioFX layer nodes st).playbackRateTarget ≠ 0) := by
  refine ⟨?_, ?_, ?_, ?_⟩
  · rintro (h | h) <;>
      · unfold updateUserAudioFX
        simp only [hf, hs, h, orDefault, truthyOpt, if_true, ite_true]
        split <;> split <;> simp
  · rintro (h | h) <;>
      · unfold updateUserAudioFX
        simp only [hs, h, truthyOpt, Bool.and_false, Bool.false_and,
          decide_not, ite_false]
        split <;> split <;> split <;> simp_all
  · unfold updateUserAudioFX
    simp only [hf, if_true, ite_true]
    rcases hcase : layer.fx.bind FxConfig.filterFreq with _ | v
    · simp only [hcase, orDefault]
      split <;> split <;> simp
    · simp only [hcase, orDefault]
      by_cases hv : v = 0
      · simp only [hv, if_true, ite_true]
        split <;> split <;> simp
      · simp only [if_neg hv]
        split <;> split <;> simpa using hv
  · intro hprev
    unfold updateUserAudioFX
    rcases hcase : layer.fx.bind FxConfig.playbackRate with _ | v
    · simp only [hcase, truthyOpt, Bool.and_false, ite_false]
      split <;> split <;> split <;> simp_all
    · by_cases hv : v = 0
      · simp only [hcase, hv, truthyOpt, decide_not]
        split <;> split <;> split <;> simp_all
      · simp only [hcase, truthyOpt]
        split <;> split <;> split <;> simp_all

/-- Witness for C10: a user layer with no FX config leaves the filter target
at `20000` and the playback-rate target at its previous `1`. -/
theorem c10_fx_falsy_defaults_witness :
    (updateUserAudioFX
        { id := "u", type := LayerType.user, instrument := "mic",
          isActive := true, volume := 50 }
        { hasGain := true, hasSource := true, hasFilter := true,
          hasReverbGain := true }
        { gainTarget := 0, playbackRateTarget := 1, filterFreqTarget := 500,
          reverbWetTarget := 0 }).filterFreqTarget = 20000
    ∧ (updateUserAudioFX
        { id := "u", type := LayerType.user, instrument := "mic",
          isActive := true, volume := 50 }
        { hasGain := true, hasSource := true, hasFilter := true,
          hasReverbGain := true }
        { gainTarget := 0, playbackRateTarget := 1, filterFreqTarget := 500,
          reverbWetTarget := 0 }).playbackRateTarget = 1 :=
  ⟨(c10_fx_falsy_defaults
      { id := "u", type := LayerType.user, instrument := "mic",
        isActive := true, volume := 50 }
      { hasGain := true, hasSource := true, hasFilter := true,
        hasReverbGain := true }
      { gainTarget := 0, playbackRateTarget := 1, filterFreqTarget := 500,
        reverbWetTarget := 0 }
      rfl rfl).1 (Or.inl rfl),
   (c10_fx_falsy_defaults
      { id := "u", type := LayerType.user, instrument := "mic",
        isActive := true, volume := 50 }
      { hasGain := true, hasSource := true, hasFilter := true,
        hasReverbGain := true }
      { gainTarget := 0, playbackRateTarget := 1, filterFreqTarget := 500,
        reverbWetTarget := 0 }
      rfl rfl).2.1 (Or.inl rfl)⟩

/-- Folding the note loop of `playCallsForLayer` appends, in note order, the
dispatches of exactly the notes within tolerance. -/
lemma noteFold_eq_filter (instr : String) (vol beat time : ℚ) :
    ∀ (notes : List Note) (acc : List Dispatch),
      (notes.foldl
        (fun acc2 note =>
          if |note.startTime - beat| < 1/10 then
            acc2 ++ [{ note := note, instrument := instr,
                       time := time, volume := vol }]
          else acc2)
        acc)
      = acc ++ (notes.filter (fun n => decide (|n.startTime - beat| < 1/10))).map
          (fun n => { note := n, instrument := instr,
                      time := time, volume := vol }) := by
  intro notes
  induction notes with
  | nil => intro acc; simp
  | cons x xs ih =>
    intro acc
    by_cases h : |x.startTime - beat| < 1/10
    · simp only [List.foldl_cons, List.filter_cons, decide_eq_true_eq,
        if_pos h, List.map_cons]
      rw [ih, List.append_assoc]
      rfl
    · simp only [List.foldl_cons, List.filter_cons, decide_eq_true_eq,
        if_neg h]
      exact ih acc

/-- One pass of the layer loop appends exactly that layer's declarative
dispatch list. -/
lemma playCallsForLayer_eq (beat time : ℚ) (layer : InstrumentLayer)
    (acc : List Dispatch) :
    playCallsForLayer beat time layer acc
      = acc ++ layerDispatchSpec beat time layer := by
  unfold playCallsForLayer layerDispatchSpec
  by_cases hskip : layer.isActive = false ∨ layer.notes = none
      ∨ layer.type = LayerType.user
  · have hspec : ¬ (layer.isActive = true ∧ layer.notes ≠ none
        ∧ layer.type ≠ LayerType.user) := by
      rcases hskip with h | h | h <;> simp [h]
    simp [hskip, hspec]
  · have hspec : layer.isActive = true ∧ layer.notes ≠ none
        ∧ layer.type ≠ LayerType.user := by
      push_neg at hskip
      exact ⟨by simpa using hskip.1, hskip.2.1, hskip.2.2⟩
    simp only [if_neg hskip, if_pos hspec]
    exact noteFold_eq_filter layer.instrument layer.volume beat time
      (layer.notes.getD []) acc

/-- The whole layer fold appends the concatenation of the per-layer
dispatch lists, in layer order. -/
lemma schedFold_eq_bind (beat time : ℚ) :
    ∀ (layers : List InstrumentLayer) (acc : List Dispatch),
      layers.foldl (fun acc layer => playCallsForLayer beat time layer acc) acc
        = acc ++ layers.flatMap (layerDispatchSpec beat time) := by
  intro layers
  induction layers with
  | nil => intro acc; simp
  | cons l ls ih =>
    intro acc
    rw [List.foldl_cons]
    rw [playCallsForLayer_eq, ih, List.flatMap_cons, List.append_assoc]

/-- Membership in a layer's declarative dispatch list. -/
lemma mem_layerDispatchSpec (beat time : ℚ) (layer : InstrumentLayer)
    (d : Dispatch) :
    d ∈ layerDispatchSpec beat time layer ↔
      layer.isActive = true ∧ layer.notes ≠ none
      ∧ layer.type ≠ LayerType.user
      ∧ ∃ n ∈ layer.notes.getD [],
          |n.startTime - beat| < 1/10
          ∧ d = { note := n, instrument := layer.instrument,
                  time := time, volume := layer.volume } := by
  unfold layerDispatchSpec
  by_cases hcond : layer.isActive = true ∧ layer.notes ≠ none
      ∧ layer.type ≠ LayerType.user
  · simp only [if_pos hcond, List.mem_map, List.mem_filter]
    constructor
    · rintro ⟨n, ⟨hn, htol⟩, rfl⟩
      exact ⟨hcond.1, hcond.2.1, hcond.2.2, n, hn, by simpa using htol, rfl⟩
    · rintro ⟨_, _, _, n, hn, htol, rfl⟩
      exact ⟨n, ⟨hn, by simpa using htol⟩, rfl⟩
  · simp only [if_neg hcond, List.not_mem_nil, false_iff]
    intro hcontra
    exact hcond ⟨hcontra.1, hcontra.2.1, hcontra.2.2.1⟩

/-- C7: a scheduling pass dispatches exactly the notes whose `startTime` is
within `0.1` beat of the cursor and whose layer is active, has a notes list
and is not the user-audio layer; inactive layers and the user layer trigger
nothing; the dispatch order is layer order, then note order within the
layer (the dispatched list is the in-order concatenation of the per-layer
in-order lists). -/
theorem c7_dispatch_exactly (layers : List InstrumentLayer) (beat time : ℚ) :
    scheduleNotesForBeat layers beat time
      = layers.flatMap (layerDispatchSpec beat time)
    ∧ ∀ d : Dispatch,
        d ∈ scheduleNotesForBeat layers beat time ↔
          ∃ layer ∈ layers,
            layer.isActive = true ∧ layer.notes ≠ none
            ∧ layer.type ≠ LayerType.user
            ∧ ∃ n ∈ layer.notes.getD [],
                |n.startTime - beat| < 1/10
                ∧ d = { note := n, instrument := layer.instrument,
                        time := time, volume := layer.volume } := by
  have heq : scheduleNotesForBeat layers beat time
      = layers.flatMap (layerDispatchSpec beat time) := by
    unfold scheduleNotesForBeat
    simpa using schedFold_eq_bind beat time layers []
  refine ⟨heq, ?_⟩
  intro d
  rw [heq, List.mem_flatMap]
  constructor
  · rintro ⟨layer, hlay, hmem⟩
    exact ⟨layer, hlay, (mem_layerDispatchSpec beat time layer d).mp hmem⟩
  · rintro ⟨layer, hlay, hrest⟩
    exact ⟨layer, hlay, (mem_layerDispatchSpec beat time layer d).mpr hrest⟩

/-- Witness for C7: one active synthesized layer with two notes, one inside
tolerance and one outside, dispatches exactly the former; an inactive layer
and a user layer dispatch nothing. -/
theorem c7_dispatch_exactly_witness :
    scheduleNotesForBeat
        [{ id := "a", type := LayerType.ai, instrument := "Deep Bass",
           isActive := true, volume := 80,
           notes := some [⟨36, 0, 1, 100⟩, ⟨38, 2, 1, 100⟩] },
         { id := "b", type := LayerType.ai, instrument := "Synth Pad",
           isActive := false, volume := 50,
           notes := some [⟨40, 0, 1, 90⟩] },
         { id := "u", type := LayerType.user, instrument := "mic",
           isActive := true, volume := 70,
           notes := some [⟨41, 0, 1, 90⟩] }] 0 (21/200)
      = [{ note := ⟨36, 0, 1, 100⟩, instrument := "Deep Bass",
           time := 21/200, volume := 80 }] :=
  (c7_dispatch_exactly
      [{ id := "a", type := LayerType.ai, instrument := "Deep Bass",
         isActive := true, volume := 80,
         notes := some [⟨36, 0, 1, 100⟩, ⟨38, 2, 1, 100⟩] },
       { id := "b", type := LayerType.ai, instrument := "Synth Pad",
         isActive := false, volume := 50,
         notes := some [⟨40, 0, 1, 90⟩] },
       { id := "u", type := LayerType.user, instrument := "mic",
         isActive := true, volume := 70,
         notes := some [⟨41, 0, 1, 90⟩] }] 0 (21/200)).1.trans
    (by norm_num [layerDispatchSpec, List.filter] <;> simp)

/-- The freshly constructed engine satisfies the lifecycle invariant. -/
lemma engineInv_init : EngineInv initEngine := by
  refine ⟨fun _ => rfl, Or.inl rfl, ?_⟩
  intro id h
  simp [initEngine] at h

/-- Computation of `stop()` when no loop source is stored. -/
lemma stopEngine_eq_none (t : UAEngine) (h : t.userSourceNode = none) :
    stopEngine t = { t with isPlaying := false, timerPending := false } := by
  unfold stopEngine
  rw [show ({ t with isPlaying := false, timerPending := false
      : UAEngine }).userSourceNode = t.userSourceNode from rfl, h]

/-- Computation of `stop()` when a loop source `id` is stored. -/
lemma stopEngine_eq_some (t : UAEngine) (id : ℕ)
    (h : t.userSourceNode = some id) :
    stopEngine t
      = { t with isPlaying := false,
                 timerPending := false,
                 userSourceNode := none,
                 playingSources :=
                   t.playingSources.filter (fun j => decide (j ≠ id)) } := by
  unfold stopEngine
  rw [show ({ t with isPlaying := false, timerPending := false
      : UAEngine }).userSourceNode = t.userSourceNode from rfl, h]

/-- Re-clearing already-false flags is the identity on the state. -/
lemma engine_update_self (t : UAEngine) (h1 : t.isPlaying = false)
    (h2 : t.timerPending = false) :
    ({ t with isPlaying := false, timerPending := false } : UAEngine) = t := by
  cases t
  simp_all

/-- `stop()` preserves the lifecycle invariant (and always empties the set
of audible loop sources). -/
lemma engineInv_stop (s : UAEngine) (h : EngineInv s) :
    EngineInv (stopEngine s)
    ∧ (stopEngine s).playingSources = []
    ∧ (stopEngine s).isPlaying = false
    ∧ (stopEngine s).timerPending = false
    ∧ (stopEngine s).userSourceNode = none
    ∧ (stopEngine s).nextSourceId = s.nextSourceId
    ∧ (stopEngine s).userAudioBuffer = s.userAudioBuffer
    ∧ (stopEngine s).layers = s.layers := by
  obtain ⟨h1, h2, h3⟩ := h
  rcases hnode : s.userSourceNode with _ | id
  · have hplay : s.playingSources = [] := by
      rcases h2 with h2 | ⟨id, hid, _⟩
      · exact h2
      · rw [hnode] at hid; cases hid
    rw [stopEngine_eq_none s hnode]
    exact ⟨⟨fun _ => hplay, Or.inl hplay, fun i hi => h3 i hi⟩,
      hplay, rfl, rfl, hnode, rfl, rfl, rfl⟩
  · have hfilter : s.playingSources.filter (fun j => decide (j ≠ id)) = [] := by
      rcases h2 with h2 | ⟨id', hid', hlist⟩
      · simp [h2]
      · rw [hnode] at hid'
        cases hid'
        simp [hlist]
    rw [stopEngine_eq_some s id hnode]
    exact ⟨⟨fun _ => hfilter, Or.inl hfilter, fun i hi => Option.noConfusion hi⟩,
      hfilter, rfl, rfl, rfl, rfl, rfl, rfl⟩

/-- `startUserAudio()` on a stopped-and-silent state either creates nothing
or creates exactly the fresh source and registers it as both the stored and
the only audible one. -/
lemma startUserAudio_cases (s : UAEngine) (hplay : s.playingSources = []) :
    (startUserAudio s = s)
    ∨ ((startUserAudio s).playingSources = [s.nextSourceId]
       ∧ (startUserAudio s).userSourceNode = some s.nextSourceId
       ∧ (startUserAudio s).nextSourceId = s.nextSourceId + 1) := by
  unfold startUserAudio
  rcases hbuf : s.userAudioBuffer with _ | buf
  · left; simp [hbuf]
  · rcases hfind : findUserLayer s.layers with _ | layer
    · left; simp [hbuf, hfind]
    · rcases hact : layer.isActive with _ | _
      · left; simp [hbuf, hfind, hact]
      · right; simp [hbuf, hfind, hact, hplay]

/-- `startUserAudio` never changes the playing flag. -/
lemma startUserAudio_isPlaying (s : UAEngine) :
    (startUserAudio s).isPlaying = s.isPlaying := by
  unfold startUserAudio
  split
  · rfl
  · split
    · rfl
    · split
      · rfl
      · rfl

/-- `start()` preserves the lifecycle invariant. -/
lemma engineInv_start (s : UAEngine) (h : EngineInv s) :
    EngineInv (startEngine s) := by
  obtain ⟨h1, h2, h3⟩ := h
  unfold startEngine
  rcases hpl : s.isPlaying with _ | _
  · simp only [Bool.false_eq_true, if_false, ite_false]
    have hplay : s.playingSources = [] := h1 (by simp [hpl])
    set s1 : UAEngine := { s with isPlaying := true, timerPending := true }
      with hs1
    have hplay1 : s1.playingSources = [] := hplay
    rcases startUserAudio_cases s1 hplay1 with hsame | ⟨hp, hn, hnext⟩
    · rw [hsame]
      refine ⟨fun _ => hplay1, Or.inl hplay1, ?_⟩
      intro id hid
      exact h3 id hid
    · refine ⟨?_, Or.inr ⟨s1.nextSourceId, hn, hp⟩, ?_⟩
      · intro hfalse
        rw [startUserAudio_isPlaying] at hfalse
        rw [hs1] at hfalse
        simp at hfalse
      · intro id hid
        rw [hn] at hid
        cases hid
        rw [hnext]
        exact Nat.lt_succ_self _
  · simp only [if_true, ite_true]
    exact ⟨h1, h2, h3⟩

/-- Every facade call preserves the lifecycle invariant. -/
lemma engineInv_step (s : UAEngine) (e : EngineEvent) (h : EngineInv s) :
    EngineInv (stepEngine s e) := by
  obtain ⟨h1, h2, h3⟩ := h
  cases e with
  | load r d =>
    unfold stepEngine loadUserAudio
    rcases r with e' | bytes
    · exact ⟨h1, h2, h3⟩
    · rcases d with e' | buf
      · exact ⟨h1, h2, h3⟩
      · exact ⟨h1, h2, h3⟩
  | setLayers ls => exact ⟨h1, h2, h3⟩
  | start => exact engineInv_start s ⟨h1, h2, h3⟩
  | stop => exact (engineInv_stop s ⟨h1, h2, h3⟩).1

/-- The lifecycle invariant holds in every reachable engine state. -/
lemma engineInv_run (es : List EngineEvent) : EngineInv (runEngine es) := by
  suffices haux : ∀ (es : List EngineEvent) (s : UAEngine), EngineInv s →
      EngineInv (es.foldl stepEngine s) by
    exact haux es initEngine engineInv_init
  intro es
  induction es with
  | nil => intro s h; exact h
  | cons e es ih =>
    intro s h
    exact ih (stepEngine s e) (engineInv_step s e h)

/-- C8 fails as stated: `await file.arrayBuffer()` sits outside the
`try`/`catch`, so a failure while reading the input file's bytes rejects to
the caller. -/
theorem c8_counterexample :
    loadUserAudio (Except.error ()) (fun _ => Except.ok 0) initEngine
      = Except.error () :=
  rfl

/-- C8 amended: a decode failure is caught internally (`loadUserAudio`
returns the engine state unchanged and the engine keeps running), and
`start()` skips creating a loop source when no decoded buffer exists; but a
failure of the file-byte read itself (`file.arrayBuffer()` rejecting, which
is awaited outside the `try`) propagates to the caller. -/
theorem c8_decode_failure_caught (r : Except Unit (List ℕ))
    (decode : List ℕ → Except Unit ℕ) (s : UAEngine) (bytes : List ℕ)
    (e : Unit) :
    (r = Except.ok bytes → decode bytes = Except.error e →
      loadUserAudio r decode s = Except.ok s)
    ∧ (r = Except.error e → loadUserAudio r decode s = Except.error e)
    ∧ (s.userAudioBuffer = none → startUserAudio s = s) := by
  refine ⟨?_, ?_, ?_⟩
  · intro hr hd
    subst hr
    show (match decode bytes with
      | .ok buf => Except.ok { s with userAudioBuffer := some buf }
      | .error _ => Except.ok s) = Except.ok s
    rw [hd]
  · intro hr
    subst hr
    rfl
  · intro hbuf
    unfold startUserAudio
    rw [hbuf]
    simp

/-- Witness for C8's amended statement: a decode failure on a loaded file
leaves the engine unchanged, and `start()` on a bufferless engine creates no
loop source. -/
theorem c8_decode_failure_caught_witness :
    loadUserAudio (Except.ok [7]) (fun _ => Except.error ()) initEngine
      = Except.ok initEngine
    ∧ startUserAudio initEngine = initEngine :=
  ⟨(c8_decode_failure_caught (Except.ok [7]) (fun _ => Except.error ())
      initEngine [7] ()).1 rfl rfl,
   (c8_decode_failure_caught (Except.ok [7]) (fun _ => Except.error ())
      initEngine [7] ()).2.2 rfl⟩

/-- C9: in every reachable engine state at most one user-audio loop source
is audible and it is the one stored in `userSourceNode`; `stop()` is
idempotent; and `stop()` immediately followed by `start()` leaves no
previously audible source audible — afterwards either no source plays (no
buffer or no active user layer) or exactly the newly created source plays
and is the stored one. -/
theorem c9_single_loop_source (es : List EngineEvent) :
    ((runEngine es).playingSources = []
     ∨ ∃ id, (runEngine es).userSourceNode = some id
         ∧ (runEngine es).playingSources = [id])
    ∧ stopEngine (stopEngine (runEngine es)) = stopEngine (runEngine es)
    ∧ (∀ old ∈ (runEngine es).playingSources,
        old ∉ (startEngine (stopEngine (runEngine es))).playingSources)
    ∧ ((startEngine (stopEngine (runEngine es))).playingSources = []
       ∨ ((startEngine (stopEngine (runEngine es))).playingSources
            = [(runEngine es).nextSourceId]
          ∧ (startEngine (stopEngine (runEngine es))).userSourceNode
            = some (runEngine es).nextSourceId)) := by
  have hinv : EngineInv (runEngine es) := engineInv_run es
  set s := runEngine es with hs
  obtain ⟨hstopInv, hplay0, hstopPlaying, hstopTimer, hstopNode, hstopNext,
      _, _⟩ := engineInv_stop s hinv
  have hstartFacts :
      (startEngine (stopEngine s)).playingSources = []
      ∨ ((startEngine (stopEngine s)).playingSources = [s.nextSourceId]
         ∧ (startEngine (stopEngine s)).userSourceNode
            = some s.nextSourceId) := by
    unfold startEngine
    rw [hstopPlaying]
    simp only [Bool.false_eq_true, if_false, ite_false]
    rcases startUserAudio_cases
        { stopEngine s with isPlaying := true, timerPending := true }
        (by simpa using hplay0) with hsame | ⟨hp, hn, _⟩
    · rw [hsame]
      left
      simpa using hplay0
    · right
      have : ({ stopEngine s with
                isPlaying := true,
                timerPending := true : UAEngine }).nextSourceId
          = s.nextSourceId := by
        simpa using hstopNext
      rw [this] at hp hn
      exact ⟨hp, hn⟩
  refine ⟨hinv.2.1, ?_, ?_, hstartFacts⟩
  · rw [stopEngine_eq_none (stopEngine s) hstopNode]
    exact engine_update_self (stopEngine s) hstopPlaying hstopTimer
  · intro old hold
    have hid : s.userSourceNode = some old := by
      rcases hinv.2.1 with hplay | ⟨id, hidn, hlist⟩
      · rw [hplay] at hold; cases hold
      · rw [hlist] at hold
        rcases List.mem_singleton.mp hold with rfl
        exact hidn
    have hlt : old < s.nextSourceId := hinv.2.2 old hid
    rcases hstartFacts with hempty | ⟨hp, _⟩
    · rw [hempty]
      exact List.not_mem_nil old
    · rw [hp]
      intro hmem
      rcases List.mem_singleton.mp hmem with rfl
      exact absurd rfl (Nat.ne_of_lt hlt)

/-- Witness for C9 on the call sequence load-ok, set an active user layer,
start, stop, start: the first loop source (id 0) is no longer audible after
the stop/start pair, and the second (id 1) is the only audible one. -/
theorem c9_single_loop_source_witness :
    0 ∈ (runEngine
        [EngineEvent.load (Except.ok [7]) (Except.ok 3),
         EngineEvent.setLayers
           [{ id := "u", type := LayerType.user, instrument := "mic",
              isActive := true, volume := 50 }],
         EngineEvent.start]).playingSources
    ∧ 0 ∉ (startEngine (stopEngine (runEngine
        [EngineEvent.load (Except.ok [7]) (Except.ok 3),
         EngineEvent.setLayers
           [{ id := "u", type := LayerType.user, instrument := "mic",
              isActive := true, volume := 50 }],
         EngineEvent.start]))).playingSources :=
  ⟨by simp [runEngine, stepEngine, loadUserAudio, setLayersE, startEngine,
      startUserAudio, findUserLayer, initEngine, List.find?],
   (c9_single_loop_source
      [EngineEvent.load (Except.ok [7]) (Except.ok 3),
       EngineEvent.setLayers
         [{ id := "u", type := LayerType.user, instrument := "mic",
            isActive := true, volume := 50 }],
       EngineEvent.start]).2.2.1 0
    (by simp [runEngine, stepEngine, loadUserAudio, setLayersE, startEngine,
        startUserAudio, findUserLayer, initEngine, List.find?])⟩

end SonicStudio
